import Mathlib

/-
Shallow embedding of the data-flow-nodes function-generation fragment of the
repository (function_generation.cpp) and of the tuple-call body header
(FN_tuple_call.hpp).  Machine unsigned integers are modelled as Nat with an
explicit reduction modulo 2^32 at the places where C `uint` arithmetic can
wrap.  Aborting faults (out-of-range indexed access, the add_new assertion of
VectorSet) are modelled with an explicit error monad, while the single
recoverable failure (graph construction returning an empty optional) is
modelled with Option.
-/

namespace BlenderFN

/-- The C `uint` modulus. -/
def UINT_MOD : Nat := 2 ^ 32

/-- C `uint` subtraction of 1, which wraps at zero: models the expression
`size() - 1` evaluated in 32-bit unsigned arithmetic (assuming the operand
is itself below 2^32, as every `uint` is). -/
def uint_sub_one (n : Nat) : Nat := (n + (UINT_MOD - 1)) % UINT_MOD

/-- A virtual node of the frozen virtual node tree: its idname and its ordered
input and output virtual sockets.  Virtual sockets are identified by a
graph-global index (pointers in C++ become indices here). -/
structure VirtualNode where
  idname : String
  inputs : List Nat
  outputs : List Nat

/-- The frozen virtual node tree: an ordered collection of virtual nodes. -/
structure VirtualNodeTree where
  nodes : List VirtualNode

/-- `VirtualNodeTree::nodes_with_idname`: all nodes whose idname matches,
in tree order. -/
def nodes_with_idname (t : VirtualNodeTree) (idname : String) : List VirtualNode :=
  t.nodes.filter (fun nd => nd.idname == idname)

/-- The data-flow graph built by the external graph-generation pass.  Only the
part used by function generation is modelled: `lookup_socket` maps a virtual
socket to its canonical data socket (a graph-local index). -/
structure VTreeDataGraph where
  lookup_socket : Nat → Nat

/-- The aborting faults of the discovery loop: an indexed socket access out of
range, or the `VectorSet::add_new` assertion firing on a duplicate element. -/
inductive Fault where
  | outOfRange
  | duplicate
  deriving DecidableEq

/-- The interface-discovery loop of `find_interface_sockets`:
`for (uint i = 0; i < bound; i++) r.add_new(data_graph.lookup_socket(node->socket(i)))`.
`i` is the current index, `acc` the VectorSet built so far (a duplicate-free
list in insertion order), and the last argument counts the remaining
iterations (`bound - i`).  An access past the end of `sockets` is the
out-of-range fault; `add_new` on an element already present is the duplicate
fault. -/
def collectFrom (sockets : List Nat) (g : VTreeDataGraph) :
    Nat → List Nat → Nat → Except Fault (List Nat)
  | _, acc, 0 => .ok acc
  | i, acc, n + 1 =>
    match sockets[i]? with
    | none => .error .outOfRange
    | some vsocket =>
      if g.lookup_socket vsocket ∈ acc then .error .duplicate
      else collectFrom sockets g (i + 1) (acc ++ [g.lookup_socket vsocket]) n

/-- One side of `find_interface_sockets`: if the looked-up pseudo-node is
absent (`nullptr`), nothing is added; otherwise the loop runs from 0 below
`size() - 1` computed in `uint` arithmetic. -/
def interfaceSide (node : Option VirtualNode) (side : VirtualNode → List Nat)
    (g : VTreeDataGraph) : Except Fault (List Nat) :=
  match node with
  | none => .ok []
  | some nd => collectFrom (side nd) g 0 [] (uint_sub_one (side nd).length)

/-- Sequencing of the two discovery loops: the input-side loop runs first, so
a fault there aborts before the output-side loop; when both complete, the two
result sets are returned. -/
def combineSides (a b : Except Fault (List Nat)) : Except Fault (List Nat × List Nat) :=
  match a with
  | .error e => .error e
  | .ok r_inputs =>
    match b with
    | .error e => .error e
    | .ok r_outputs => .ok (r_inputs, r_outputs)

/-- `find_interface_sockets` of function_generation.cpp: look up the first
node with idname "fn_FunctionInputNode" and the first with
"fn_FunctionOutputNode" (`.get(0, nullptr)`), then collect the data sockets of
the outputs of the input node (minus the last) into `r_inputs` and of the
inputs of the output node (minus the last) into `r_outputs`. -/
def find_interface_sockets (t : VirtualNodeTree) (g : VTreeDataGraph) :
    Except Fault (List Nat × List Nat) :=
  let input_node := (nodes_with_idname t "fn_FunctionInputNode").head?
  let output_node := (nodes_with_idname t "fn_FunctionOutputNode").head?
  combineSides (interfaceSide input_node VirtualNode.outputs g)
    (interfaceSide output_node VirtualNode.inputs g)

/-- The kinds of executable bodies that can be attached to a Function by the
body-generation passes of this fragment.  `DerivedTupleCallBody` marks the
result of the disabled path `derive_TupleCallBody_from_LLVMBuildIRBody`. -/
inductive BodyKind where
  | DependenciesBody
  | LLVMBuildIRBody
  | TupleCallBody
  | DerivedTupleCallBody
  deriving DecidableEq

/-- A value whose ownership is moved into the resource list of a Function. -/
inductive ResourceValue where
  | vtreeRes (t : VirtualNodeTree)
  | dataGraphRes (g : VTreeDataGraph)

/-- An owned resource of a Function: the moved value and the name given to
`add_resource`. -/
structure Resource where
  value : ResourceValue
  name : String

/-- The generated Function artifact: its name, the positional input and output
data sockets of its function graph, the attached bodies in attachment order,
and its owned resources in registration order. -/
structure Function where
  name : String
  input_sockets : List Nat
  output_sockets : List Nat
  bodies : List BodyKind
  resources : List Resource

/-- `FunctionGraph`: a data-flow graph plus the ordered input and output
interface socket sets. -/
structure FunctionGraph where
  graph : VTreeDataGraph
  inputs : List Nat
  outputs : List Nat

/-- Modelled from the spec: `FunctionGraph::new_function` (declared outside
this excerpt) creates a new Function named by its argument whose declared
inputs and outputs are the interface socket sets of the function graph, with
no bodies and no resources attached yet. -/
def FunctionGraph.new_function (fg : FunctionGraph) (name : String) : Function :=
  { name := name
    input_sockets := fg.inputs
    output_sockets := fg.outputs
    bodies := []
    resources := [] }

/-- Modelled from the spec: `fgraph_add_DependenciesBody` (declared in
FN_dependencies.hpp, outside this excerpt) attaches the dependency-metadata
body to the Function; the attachment contract takes the Function and the
function graph and always succeeds. -/
def fgraph_add_DependenciesBody (fn : Function) (_fg : FunctionGraph) : Function :=
  { fn with bodies := fn.bodies ++ [BodyKind.DependenciesBody] }

/-- Modelled from the spec: `fgraph_add_LLVMBuildIRBody` (declared in
FN_llvm.hpp, outside this excerpt) attaches the compiled-code body to the
Function; the attachment contract takes the Function and the function graph
and always succeeds. -/
def fgraph_add_LLVMBuildIRBody (fn : Function) (_fg : FunctionGraph) : Function :=
  { fn with bodies := fn.bodies ++ [BodyKind.LLVMBuildIRBody] }

/-- Modelled from the spec: `fgraph_add_TupleCallBody` (declared in
FN_tuple_call.hpp, outside this excerpt) attaches the interpreted tuple-call
body to the Function; the attachment contract takes the Function and the
function graph and always succeeds. -/
def fgraph_add_TupleCallBody (fn : Function) (_fg : FunctionGraph) : Function :=
  { fn with bodies := fn.bodies ++ [BodyKind.TupleCallBody] }

/-- Modelled from the spec: `derive_TupleCallBody_from_LLVMBuildIRBody`, the
alternative pass that would derive the interpreted body from the compiled
body.  The call to it in `generate_function` is commented out, so this is an
intentionally disabled code path. -/
def derive_TupleCallBody_from_LLVMBuildIRBody (fn : Function) : Function :=
  { fn with bodies := fn.bodies ++ [BodyKind.DerivedTupleCallBody] }

/-- `Function::add_resource`: append an owned value with its name to the
resource list of the Function. -/
def Function.add_resource (fn : Function) (v : ResourceValue) (name : String) : Function :=
  { fn with resources := fn.resources ++ [⟨v, name⟩] }

/-- The mutable node tree handed to `generate_function`: its id name
(`btree->id.name`) and the virtual view that `add_all_of_tree` plus
`freeze_and_index` produce from it (the construction of the virtual view is
external to this fragment, so the frozen view is taken as given). -/
structure bNodeTree where
  id_name : String
  vtree : VirtualNodeTree

/-- The tail of `generate_function` after graph construction has succeeded:
build the function graph from the discovered interface sockets, create the
Function named after the tree, attach the three body passes in order (the
derivation of the tuple-call body from the compiled body stays commented
out), and move the virtual tree and the data graph into the resource list. -/
def decorateFunction (btree : bNodeTree) (data_graph : VTreeDataGraph)
    (sockets : List Nat × List Nat) : Function :=
  let fgraph : FunctionGraph := ⟨data_graph, sockets.1, sockets.2⟩
  let fn := fgraph.new_function btree.id_name
  let fn := fgraph_add_DependenciesBody fn fgraph
  let fn := fgraph_add_LLVMBuildIRBody fn fgraph
  let fn := fgraph_add_TupleCallBody fn fgraph
  let fn := fn.add_resource (ResourceValue.vtreeRes btree.vtree) "Virtual Node Tree"
  fn.add_resource (ResourceValue.dataGraphRes data_graph) "VTreeDataGraph"

/-- Propagation of an interface-discovery fault into the result of
`generate_function`: a fault aborts, otherwise the decorated Function is
returned. -/
def finishFunction (btree : bNodeTree) (data_graph : VTreeDataGraph)
    (r : Except Fault (List Nat × List Nat)) : Except Fault (Option Function) :=
  match r with
  | .error e => .error e
  | .ok sockets => .ok (some (decorateFunction btree data_graph sockets))

/-- `generate_function` of function_generation.cpp, parameterised over the
external graph-generation collaborator `generate_graph`.  The outer `Except`
carries the aborting faults of interface discovery; the inner `Option` is the
functions result: `none` when graph construction reports failure
(`return {}`), otherwise the fully decorated Function. -/
def generate_function (generate_graph : VirtualNodeTree → Option VTreeDataGraph)
    (btree : bNodeTree) : Except Fault (Option Function) :=
  let vtree := btree.vtree
  match generate_graph vtree with
  | none => .ok none
  | some data_graph =>
    finishFunction btree data_graph (find_interface_sockets vtree data_graph)

/-
Embedding of FN_tuple_call.hpp (src/unnamed/part_000): execution stack
frames, the tuple-call body calling convention, and the lazy variant with its
LazyState.  The virtual `call` of a body is modelled as a function field that
transforms the by-reference arguments (the two tuples and the execution
stack, plus the LazyState for the lazy variant) into their values at return.
-/

/-- A diagnostic stack frame: either a text frame built from the owning
Function name (`TextStackFrame`) or a source-info frame
(`SourceInfoStackFrame`, carrying a possibly null `SourceInfo *`, modelled as
an optional identifier). -/
inductive StackFrame where
  | text (s : String)
  | sourceInfo (si : Option Nat)

/-- `ExecutionStack`: the stack of diagnostic frames of an execution
context. -/
structure ExecutionStack where
  frames : List StackFrame

/-- `ExecutionStack::push`. -/
def ExecutionStack.push (s : ExecutionStack) (f : StackFrame) : ExecutionStack :=
  ⟨f :: s.frames⟩

/-- `ExecutionStack::pop`: remove the most recently pushed frame. -/
def ExecutionStack.pop (s : ExecutionStack) : ExecutionStack :=
  ⟨s.frames.tail⟩

/-- A tuple: a fixed-layout container of value slots, each either initialized
with a value or uninitialized. -/
structure Tuple where
  values : List (Option Nat)

/-- A tuple-call body: the name of its owning Function and its virtual `call`
implementation, which receives `fn_in`, `fn_out` and the execution stack by
reference and returns their values when the call ends. -/
structure TupleCallBody where
  owner_name : String
  call : Tuple → Tuple → ExecutionStack → Tuple × Tuple × ExecutionStack

/-- `TupleCallBody::call__setup_stack(fn_in, fn_out, ctx)`: push a text frame
named after the owning Function, invoke `call`, pop. -/
def TupleCallBody.call__setup_stack (body : TupleCallBody)
    (fn_in fn_out : Tuple) (stack : ExecutionStack) : Tuple × Tuple × ExecutionStack :=
  let frame := StackFrame.text body.owner_name
  let r := body.call fn_in fn_out (stack.push frame)
  (r.1, r.2.1, r.2.2.pop)

/-- `TupleCallBody::call__setup_stack(fn_in, fn_out, ctx, extra_frame)`: push
the caller-supplied frame, delegate to the base overload, pop. -/
def TupleCallBody.call__setup_stack_extra (body : TupleCallBody)
    (fn_in fn_out : Tuple) (stack : ExecutionStack) (extra_frame : StackFrame) :
    Tuple × Tuple × ExecutionStack :=
  let r := body.call__setup_stack fn_in fn_out (stack.push extra_frame)
  (r.1, r.2.1, r.2.2.pop)

/-- `TupleCallBody::call__setup_stack(fn_in, fn_out, ctx, source_info)`: wrap
the source info in a frame and delegate to the extra-frame overload. -/
def TupleCallBody.call__setup_stack_source (body : TupleCallBody)
    (fn_in fn_out : Tuple) (stack : ExecutionStack) (source_info : Option Nat) :
    Tuple × Tuple × ExecutionStack :=
  body.call__setup_stack_extra fn_in fn_out stack (StackFrame.sourceInfo source_info)

/-- `LazyState` of FN_tuple_call.hpp: entry counter (`uint`), done flag,
opaque user-data pointer, and the list of requested input indices. -/
structure LazyState where
  entry_count : Nat
  is_done : Bool
  user_data : Nat
  requested_inputs : List Nat

/-- `LazyState::start_next_entry`: increment the entry counter (`uint`
arithmetic) and clear the requested-inputs list. -/
def LazyState.start_next_entry (s : LazyState) : LazyState :=
  { s with
    entry_count := (s.entry_count + 1) % UINT_MOD
    requested_inputs := [] }

/-- `LazyState::request_input`: append an index to the requested list. -/
def LazyState.request_input (s : LazyState) (index : Nat) : LazyState :=
  { s with requested_inputs := s.requested_inputs ++ [index] }

/-- `LazyState::done`: set the done flag. -/
def LazyState.done (s : LazyState) : LazyState :=
  { s with is_done := true }

/-- `LazyState::is_first_entry`. -/
def LazyState.is_first_entry (s : LazyState) : Bool :=
  s.entry_count == 1

/-- The mutating operations a caller or implementation can perform on a
LazyState after construction. -/
inductive LazyOp where
  | startNextEntry
  | requestInput (index : Nat)
  | signalDone

/-- Apply one LazyState operation. -/
def applyLazyOp (s : LazyState) : LazyOp → LazyState
  | .startNextEntry => s.start_next_entry
  | .requestInput i => s.request_input i
  | .signalDone => s.done

/-- Apply a sequence of LazyState operations, first operation first. -/
def applyLazyOps (s : LazyState) (ops : List LazyOp) : LazyState :=
  ops.foldl applyLazyOp s

/-- A lazy tuple-call body: owning Function name and the virtual `call`
implementation, which additionally receives the LazyState by reference. -/
structure LazyInTupleCallBody where
  owner_name : String
  call : Tuple → Tuple → ExecutionStack → LazyState →
    Tuple × Tuple × ExecutionStack × LazyState

/-- `LazyInTupleCallBody::call__setup_stack(fn_in, fn_out, ctx, state)`: push
a text frame named after the owning Function, invoke `call`, pop. -/
def LazyInTupleCallBody.call__setup_stack (body : LazyInTupleCallBody)
    (fn_in fn_out : Tuple) (stack : ExecutionStack) (state : LazyState) :
    Tuple × Tuple × ExecutionStack × LazyState :=
  let frame := StackFrame.text body.owner_name
  let r := body.call fn_in fn_out (stack.push frame) state
  (r.1, r.2.1, r.2.2.1.pop, r.2.2.2)

/-- `LazyInTupleCallBody::call__setup_stack(..., extra_frame)`: push the
caller-supplied frame, delegate to the base overload, pop. -/
def LazyInTupleCallBody.call__setup_stack_extra (body : LazyInTupleCallBody)
    (fn_in fn_out : Tuple) (stack : ExecutionStack) (state : LazyState)
    (extra_frame : StackFrame) : Tuple × Tuple × ExecutionStack × LazyState :=
  let r := body.call__setup_stack fn_in fn_out (stack.push extra_frame) state
  (r.1, r.2.1, r.2.2.1.pop, r.2.2.2)

/-- `LazyInTupleCallBody::call__setup_stack(..., source_info)`: wrap the
source info in a frame and delegate to the extra-frame overload. -/
def LazyInTupleCallBody.call__setup_stack_source (body : LazyInTupleCallBody)
    (fn_in fn_out : Tuple) (stack : ExecutionStack) (state : LazyState)
    (source_info : Option Nat) : Tuple × Tuple × ExecutionStack × LazyState :=
  body.call__setup_stack_extra fn_in fn_out stack state (StackFrame.sourceInfo source_info)

/-
Concrete sample inputs used to instantiate the theorems below.
-/

/-- A graph-generation collaborator that always reports failure. -/
def genFail : VirtualNodeTree → Option VTreeDataGraph := fun _ => none

/-- The input pseudo-node of the trivial round-trip tree: two real output
sockets (0 and 1) plus the trailing placeholder socket (2). -/
def inNodeSample : VirtualNode := ⟨"fn_FunctionInputNode", [], [0, 1, 2]⟩

/-- The output pseudo-node of the trivial round-trip tree: one real input
socket (3) plus the trailing placeholder socket (4). -/
def outNodeSample : VirtualNode := ⟨"fn_FunctionOutputNode", [3, 4], []⟩

/-- The trivial round-trip tree: one input pseudo-node and one output
pseudo-node. -/
def treeSample : bNodeTree := ⟨"Trivial Tree", ⟨[inNodeSample, outNodeSample]⟩⟩

/-- The data graph of the trivial tree: the real input-node sockets map to
their own data sockets, and the output-node socket 3, connected directly to
socket 0, maps to the data socket of its origin. -/
def graphSample : VTreeDataGraph := ⟨fun v => if v == 3 then 0 else v⟩

/-- A graph-generation collaborator that succeeds with `graphSample`. -/
def genSample : VirtualNodeTree → Option VTreeDataGraph := fun _ => some graphSample

/-- A tree with no input pseudo-node. -/
def treeNoInput : VirtualNodeTree := ⟨[outNodeSample]⟩

/-- A tree with no output pseudo-node. -/
def treeNoOutput : VirtualNodeTree := ⟨[inNodeSample]⟩

/-- A tree with two input pseudo-nodes (the first one equal to the one of
`treeSample`) and one output pseudo-node. -/
def treeTwoInputs : VirtualNodeTree :=
  ⟨[inNodeSample, ⟨"fn_FunctionInputNode", [], [7, 8]⟩, outNodeSample]⟩

/-- A tree whose input pseudo-node has zero sockets. -/
def treeZeroSocketInput : VirtualNodeTree := ⟨[⟨"fn_FunctionInputNode", [], []⟩]⟩

/-- A sample tuple-call body whose `call` leaves everything unchanged. -/
def bodySample : TupleCallBody := ⟨"f", fun fn_in fn_out s => (fn_in, fn_out, s)⟩

/-- A sample lazy tuple-call body whose `call` leaves everything unchanged. -/
def lazyBodySample : LazyInTupleCallBody :=
  ⟨"g", fun fn_in fn_out s st => (fn_in, fn_out, s, st)⟩

/-- A sample tuple. -/
def tupleSample : Tuple := ⟨[some 1, none]⟩

/-- A sample execution stack with one frame already on it. -/
def stackSample : ExecutionStack := ⟨[StackFrame.text "caller"]⟩

/-- A sample lazy state that has already signalled done, with a stale
requested input. -/
def lazyStateDoneSample : LazyState := ⟨1, true, 0, [2]⟩

/-- A sample operation sequence on a LazyState. -/
def lazyOpsSample : List LazyOp :=
  [LazyOp.startNextEntry, LazyOp.requestInput 5, LazyOp.startNextEntry,
   LazyOp.requestInput 0, LazyOp.signalDone, LazyOp.startNextEntry]

/-
Helper lemmas about the discovery loop.
-/

theorem collectFrom_zero (sockets : List Nat) (g : VTreeDataGraph) (i : Nat)
    (acc : List Nat) : collectFrom sockets g i acc 0 = .ok acc := rfl

theorem collectFrom_succ (sockets : List Nat) (g : VTreeDataGraph) (i : Nat)
    (acc : List Nat) (n : Nat) :
    collectFrom sockets g i acc (n + 1) =
      match sockets[i]? with
      | none => .error .outOfRange
      | some vsocket =>
        if g.lookup_socket vsocket ∈ acc then .error .duplicate
        else collectFrom sockets g (i + 1) (acc ++ [g.lookup_socket vsocket]) n := rfl

/-- When the loop completes without a fault, it has appended exactly the
looked-up data sockets of the `n` virtual sockets starting at index `i`, and
the resulting set is duplicate-free. -/
theorem collectFrom_ok_characterization (sockets : List Nat) (g : VTreeDataGraph) :
    ∀ n i acc l, acc.Nodup → collectFrom sockets g i acc n = .ok l →
      l = acc ++ ((sockets.drop i).take n).map g.lookup_socket ∧ l.Nodup := by
  intro n
  induction n with
  | zero =>
    intro i acc l hnd h
    rw [collectFrom_zero] at h
    cases h
    simpa using hnd
  | succ n ih =>
    intro i acc l hnd h
    rw [collectFrom_succ] at h
    cases hs : sockets[i]? with
    | none => simp only [hs] at h; cases h
    | some v =>
      simp only [hs] at h
      by_cases hmem : g.lookup_socket v ∈ acc
      · rw [if_pos hmem] at h; cases h
      · rw [if_neg hmem] at h
        have hacc : (acc ++ [g.lookup_socket v]).Nodup := by
          simp [List.nodup_append, hnd, hmem]
        obtain ⟨hl, hnd2⟩ := ih (i + 1) (acc ++ [g.lookup_socket v]) l hacc h
        refine ⟨?_, hnd2⟩
        have hi : i < sockets.length := by
          by_contra hge
          rw [List.getElem?_eq_none (Nat.le_of_not_lt hge)] at hs
          cases hs
        have hdrop : sockets.drop i = sockets[i] :: sockets.drop (i + 1) :=
          List.drop_eq_getElem_cons hi
        have hv : sockets[i] = v := by
          have := List.getElem?_eq_getElem hi
          rw [hs] at this
          exact (Option.some.injEq _ _).mp this.symm
        rw [hl, hdrop, hv]
        simp

/-- A nonzero loop bound with the index already past the end of the socket
list faults immediately with the out-of-range fault. -/
theorem collectFrom_oob (sockets : List Nat) (g : VTreeDataGraph) (n i : Nat)
    (acc : List Nat) (hlen : sockets.length ≤ i) (hn : n ≠ 0) :
    collectFrom sockets g i acc n = .error .outOfRange := by
  cases n with
  | zero => cases hn rfl
  | succ n =>
    rw [collectFrom_succ, List.getElem?_eq_none hlen]

theorem uint_sub_one_zero : uint_sub_one 0 = UINT_MOD - 1 := rfl

theorem uint_sub_one_of_pos {n : Nat} (h1 : 1 ≤ n) (h2 : n < UINT_MOD) :
    uint_sub_one n = n - 1 := by
  have hm : UINT_MOD = 4294967296 := by norm_num [UINT_MOD]
  rw [uint_sub_one, hm]
  rw [hm] at h2
  omega

theorem interfaceSide_none (side : VirtualNode → List Nat) (g : VTreeDataGraph) :
    interfaceSide none side g = .ok [] := rfl

theorem interfaceSide_some (nd : VirtualNode) (side : VirtualNode → List Nat)
    (g : VTreeDataGraph) :
    interfaceSide (some nd) side g =
      collectFrom (side nd) g 0 [] (uint_sub_one (side nd).length) := rfl

theorem combineSides_ok_iff (a b : Except Fault (List Nat)) (ins outs : List Nat) :
    combineSides a b = .ok (ins, outs) ↔ a = .ok ins ∧ b = .ok outs := by
  cases a <;> cases b <;> simp [combineSides]

theorem combineSides_error_left (e : Fault) (b : Except Fault (List Nat)) :
    combineSides (.error e) b = .error e := rfl

theorem combineSides_error_right (ins : List Nat) (e : Fault) :
    combineSides (.ok ins) (.error e) = .error e := rfl

theorem combineSides_empty_left (b : Except Fault (List Nat)) :
    combineSides (.ok []) b = Except.map (fun outs => (([] : List Nat), outs)) b := by
  cases b <;> rfl

theorem combineSides_empty_right (a : Except Fault (List Nat)) :
    combineSides a (.ok []) = Except.map (fun ins => (ins, ([] : List Nat))) a := by
  cases a <;> rfl

/-- Unfolding of `find_interface_sockets` once the two pseudo-node lookups
are known. -/
theorem find_interface_sockets_eq (t : VirtualNodeTree) (g : VTreeDataGraph)
    (ni? no? : Option VirtualNode)
    (hin : (nodes_with_idname t "fn_FunctionInputNode").head? = ni?)
    (hout : (nodes_with_idname t "fn_FunctionOutputNode").head? = no?) :
    find_interface_sockets t g =
      combineSides (interfaceSide ni? VirtualNode.outputs g)
        (interfaceSide no? VirtualNode.inputs g) := by
  unfold find_interface_sockets
  rw [hin, hout]

theorem finishFunction_error (btree : bNodeTree) (data_graph : VTreeDataGraph)
    (e : Fault) : finishFunction btree data_graph (.error e) = .error e := rfl

theorem finishFunction_ok (btree : bNodeTree) (data_graph : VTreeDataGraph)
    (sockets : List Nat × List Nat) :
    finishFunction btree data_graph (.ok sockets) =
      .ok (some (decorateFunction btree data_graph sockets)) := rfl

/-
Claim theorems.
-/

/-- C1: whenever the graph-construction pass reports failure by returning no
value, `generate_function` returns the empty optional without throwing (no
fault in the error monad) and produces no Function. -/
theorem generate_function_none_of_graph_failure
    (generate_graph : VirtualNodeTree → Option VTreeDataGraph) (btree : bNodeTree)
    (h : generate_graph btree.vtree = none) :
    generate_function generate_graph btree = .ok none := by
  unfold generate_function
  simp only [h]

/-- Witness for C1 at the always-failing collaborator and the trivial tree. -/
theorem generate_function_none_of_graph_failure_witness :
    genFail treeSample.vtree = none ∧
      generate_function genFail treeSample = .ok none :=
  ⟨rfl, generate_function_none_of_graph_failure genFail treeSample rfl⟩

/-- C6: for every tuple-call body whose virtual `call` leaves the frame
stack as it found it, every `call__setup_stack` overload (plain, with extra
caller-supplied frame, with source info) returns with the frame stack equal
to the stack before the call; the same holds for the overloads of the lazy
variant. -/
theorem call_setup_stack_balances
    (body : TupleCallBody) (lbody : LazyInTupleCallBody)
    (hb : ∀ fn_in fn_out s, (body.call fn_in fn_out s).2.2 = s)
    (hl : ∀ fn_in fn_out s st, (lbody.call fn_in fn_out s st).2.2.1 = s) :
    (∀ fn_in fn_out s, (body.call__setup_stack fn_in fn_out s).2.2 = s) ∧
    (∀ fn_in fn_out s e, (body.call__setup_stack_extra fn_in fn_out s e).2.2 = s) ∧
    (∀ fn_in fn_out s si, (body.call__setup_stack_source fn_in fn_out s si).2.2 = s) ∧
    (∀ fn_in fn_out s st, (lbody.call__setup_stack fn_in fn_out s st).2.2.1 = s) ∧
    (∀ fn_in fn_out s st e, (lbody.call__setup_stack_extra fn_in fn_out s st e).2.2.1 = s) ∧
    (∀ fn_in fn_out s st si,
      (lbody.call__setup_stack_source fn_in fn_out s st si).2.2.1 = s) := by
  have h1 : ∀ fn_in fn_out s, (body.call__setup_stack fn_in fn_out s).2.2 = s := by
    intro fn_in fn_out s
    simp [TupleCallBody.call__setup_stack, hb, ExecutionStack.push, ExecutionStack.pop]
  have h2 : ∀ fn_in fn_out s e,
      (body.call__setup_stack_extra fn_in fn_out s e).2.2 = s := by
    intro fn_in fn_out s e
    simp [TupleCallBody.call__setup_stack_extra, h1, ExecutionStack.push, ExecutionStack.pop]
  have h4 : ∀ fn_in fn_out s st,
      (lbody.call__setup_stack fn_in fn_out s st).2.2.1 = s := by
    intro fn_in fn_out s st
    simp [LazyInTupleCallBody.call__setup_stack, hl, ExecutionStack.push, ExecutionStack.pop]
  have h5 : ∀ fn_in fn_out s st e,
      (lbody.call__setup_stack_extra fn_in fn_out s st e).2.2.1 = s := by
    intro fn_in fn_out s st e
    simp [LazyInTupleCallBody.call__setup_stack_extra, h4, ExecutionStack.push,
      ExecutionStack.pop]
  exact ⟨h1, h2, fun fn_in fn_out s si => h2 fn_in fn_out s _, h4, h5,
    fun fn_in fn_out s st si => h5 fn_in fn_out s st _⟩

/-- Witness for C6 at a stack-preserving body and a nonempty stack. -/
theorem call_setup_stack_balances_witness :
    (bodySample.call__setup_stack tupleSample tupleSample stackSample).2.2 = stackSample ∧
      (lazyBodySample.call__setup_stack tupleSample tupleSample stackSample
        lazyStateDoneSample).2.2.1 = stackSample := by
  have h := call_setup_stack_balances bodySample lazyBodySample
    (fun fn_in fn_out s => rfl) (fun fn_in fn_out s st => rfl)
  exact ⟨h.1 tupleSample tupleSample stackSample,
    h.2.2.2.1 tupleSample tupleSample stackSample lazyStateDoneSample⟩

/-- C7: for every LazyState, whatever requests previous entries appended,
`start_next_entry` leaves the requested-inputs list empty. -/
theorem start_next_entry_clears_requests (s : LazyState) :
    s.start_next_entry.requested_inputs = [] := rfl

/-- C8: the done state is terminal: once the done flag is set, it stays set
under every further sequence of `start_next_entry`, `request_input` and
`done` operations. -/
theorem done_is_terminal (s : LazyState) (ops : List LazyOp)
    (h : s.is_done = true) : (applyLazyOps s ops).is_done = true := by
  induction ops generalizing s with
  | nil => exact h
  | cons op rest ih =>
    have hstep : (applyLazyOp s op).is_done = true := by
      cases op <;>
        simp [applyLazyOp, LazyState.start_next_entry, LazyState.request_input,
          LazyState.done, h]
    exact ih (applyLazyOp s op) hstep

/-- Witness for C8 at a done state and a sample operation sequence. -/
theorem done_is_terminal_witness :
    lazyStateDoneSample.is_done = true ∧
      (applyLazyOps lazyStateDoneSample lazyOpsSample).is_done = true :=
  ⟨rfl, done_is_terminal lazyStateDoneSample lazyOpsSample rfl⟩

/-- C2: for a tree whose input and output pseudo-nodes are present, each with
at least one socket, whenever `find_interface_sockets` completes without an
aborting fault its input and output sets are exactly the looked-up data
sockets of the declared sockets of that node minus the last one (the
trailing placeholder), in declared order, with matching cardinality, and the
sockets on each side are pairwise distinct. -/
theorem find_interface_sockets_spec
    (t : VirtualNodeTree) (g : VTreeDataGraph) (ni no : VirtualNode)
    (ins outs : List Nat)
    (hin : (nodes_with_idname t "fn_FunctionInputNode").head? = some ni)
    (hout : (nodes_with_idname t "fn_FunctionOutputNode").head? = some no)
    (hni : 1 ≤ ni.outputs.length) (hni32 : ni.outputs.length < UINT_MOD)
    (hno : 1 ≤ no.inputs.length) (hno32 : no.inputs.length < UINT_MOD)
    (hok : find_interface_sockets t g = .ok (ins, outs)) :
    ins = ni.outputs.dropLast.map g.lookup_socket ∧
    outs = no.inputs.dropLast.map g.lookup_socket ∧
    ins.length = ni.outputs.length - 1 ∧
    outs.length = no.inputs.length - 1 ∧
    ins.Nodup ∧ outs.Nodup := by
  rw [find_interface_sockets_eq t g (some ni) (some no) hin hout,
    combineSides_ok_iff] at hok
  obtain ⟨h1, h2⟩ := hok
  rw [interfaceSide_some, uint_sub_one_of_pos hni hni32] at h1
  rw [interfaceSide_some, uint_sub_one_of_pos hno hno32] at h2
  obtain ⟨hc1, hnd1⟩ := collectFrom_ok_characterization ni.outputs g
    (ni.outputs.length - 1) 0 [] ins List.nodup_nil h1
  obtain ⟨hc2, hnd2⟩ := collectFrom_ok_characterization no.inputs g
    (no.inputs.length - 1) 0 [] outs List.nodup_nil h2
  rw [List.drop_zero, ← List.dropLast_eq_take, List.nil_append] at hc1 hc2
  subst hc1 hc2
  refine ⟨rfl, rfl, ?_, ?_, hnd1, hnd2⟩
  · simp [List.length_dropLast]
  · simp [List.length_dropLast]

/-- Witness for C2 at the trivial sample tree and its data graph. -/
theorem find_interface_sockets_spec_witness :
    find_interface_sockets treeSample.vtree graphSample = .ok ([0, 1], [0]) ∧
      ([0, 1] : List Nat) = inNodeSample.outputs.dropLast.map graphSample.lookup_socket :=
  ⟨rfl,
    (find_interface_sockets_spec treeSample.vtree graphSample inNodeSample outNodeSample
      [0, 1] [0] rfl rfl (by norm_num [inNodeSample])
      (by norm_num [inNodeSample, UINT_MOD]) (by norm_num [outNodeSample])
      (by norm_num [outNodeSample, UINT_MOD]) rfl).1⟩

/-- C3: if the tree contains no node of the input pseudo-kind, the discovered
input set is empty and the input side contributes no error (the overall
result is whatever the output side alone produces); symmetrically for a
missing output pseudo-node. -/
theorem find_interface_sockets_missing_node (t : VirtualNodeTree) (g : VTreeDataGraph) :
    (nodes_with_idname t "fn_FunctionInputNode" = [] →
      find_interface_sockets t g =
        Except.map (fun outs => (([] : List Nat), outs))
          (interfaceSide (nodes_with_idname t "fn_FunctionOutputNode").head?
            VirtualNode.inputs g)) ∧
    (nodes_with_idname t "fn_FunctionOutputNode" = [] →
      find_interface_sockets t g =
        Except.map (fun ins => (ins, ([] : List Nat)))
          (interfaceSide (nodes_with_idname t "fn_FunctionInputNode").head?
            VirtualNode.outputs g)) := by
  constructor
  · intro h
    rw [find_interface_sockets_eq t g none
        ((nodes_with_idname t "fn_FunctionOutputNode").head?) (by rw [h]; rfl) rfl,
      interfaceSide_none, combineSides_empty_left]
  · intro h
    rw [find_interface_sockets_eq t g
        ((nodes_with_idname t "fn_FunctionInputNode").head?) none rfl (by rw [h]; rfl),
      interfaceSide_none, combineSides_empty_right]

/-- Witness for C3 at a tree without an input pseudo-node. -/
theorem find_interface_sockets_missing_node_witness :
    nodes_with_idname treeNoInput "fn_FunctionInputNode" = [] ∧
      find_interface_sockets treeNoInput graphSample =
        Except.map (fun outs => (([] : List Nat), outs))
          (interfaceSide (nodes_with_idname treeNoInput "fn_FunctionOutputNode").head?
            VirtualNode.inputs graphSample) :=
  ⟨rfl, (find_interface_sockets_missing_node treeNoInput graphSample).1 rfl⟩

/-- C10: `find_interface_sockets` depends only on the first node of each
pseudo-kind: two trees that agree on the first input pseudo-node and the
first output pseudo-node get the same interface, so further nodes of the
same kind are ignored and cause no error. -/
theorem find_interface_sockets_uses_first_node
    (t1 t2 : VirtualNodeTree) (g : VTreeDataGraph)
    (hin : (nodes_with_idname t1 "fn_FunctionInputNode").head? =
      (nodes_with_idname t2 "fn_FunctionInputNode").head?)
    (hout : (nodes_with_idname t1 "fn_FunctionOutputNode").head? =
      (nodes_with_idname t2 "fn_FunctionOutputNode").head?) :
    find_interface_sockets t1 g = find_interface_sockets t2 g := by
  unfold find_interface_sockets
  rw [hin, hout]

/-- Witness for C10: a tree with two input pseudo-nodes yields the same
interface as the tree holding only the first of them. -/
theorem find_interface_sockets_uses_first_node_witness :
    (nodes_with_idname treeTwoInputs "fn_FunctionInputNode").length = 2 ∧
      find_interface_sockets treeTwoInputs graphSample =
        find_interface_sockets treeSample.vtree graphSample :=
  ⟨rfl, find_interface_sockets_uses_first_node treeTwoInputs treeSample.vtree
    graphSample rfl rfl⟩

/-- C9: the discovery loop bound `size() - 1` is computed in unsigned 32-bit
arithmetic, so for a present pseudo-node with zero sockets it wraps to
2^32 - 1 and the socket accesses go out of range (the run aborts with the
out-of-range fault); for a node with at least one socket (and fewer than
2^32) the bound is the exact socket count minus one, keeping every access in
range. -/
theorem discovery_loop_bound_wraps :
    uint_sub_one 0 = 2 ^ 32 - 1 ∧
    (∀ n, 1 ≤ n → n < 2 ^ 32 → uint_sub_one n = n - 1) ∧
    (∀ (t : VirtualNodeTree) (g : VTreeDataGraph) (ni : VirtualNode),
      (nodes_with_idname t "fn_FunctionInputNode").head? = some ni →
      ni.outputs = [] →
      find_interface_sockets t g = .error .outOfRange) ∧
    (∀ (t : VirtualNodeTree) (g : VTreeDataGraph) (no : VirtualNode),
      (nodes_with_idname t "fn_FunctionInputNode").head? = none →
      (nodes_with_idname t "fn_FunctionOutputNode").head? = some no →
      no.inputs = [] →
      find_interface_sockets t g = .error .outOfRange) := by
  refine ⟨by norm_num [uint_sub_one, UINT_MOD], ?_, ?_, ?_⟩
  · intro n h1 h2
    exact uint_sub_one_of_pos h1 h2
  · intro t g ni hin hnil
    rw [find_interface_sockets_eq t g (some ni)
        ((nodes_with_idname t "fn_FunctionOutputNode").head?) hin rfl,
      interfaceSide_some, hnil, List.length_nil,
      collectFrom_oob [] g (uint_sub_one 0) 0 [] (by simp) (by decide),
      combineSides_error_left]
  · intro t g no hin hout hnil
    rw [find_interface_sockets_eq t g none (some no) hin hout,
      interfaceSide_none, interfaceSide_some, hnil, List.length_nil,
      collectFrom_oob [] g (uint_sub_one 0) 0 [] (by simp) (by decide),
      combineSides_error_right]

/-- Witness for C9 at a tree whose input pseudo-node has zero sockets. -/
theorem discovery_loop_bound_wraps_witness :
    find_interface_sockets treeZeroSocketInput graphSample = .error .outOfRange :=
  discovery_loop_bound_wraps.2.2.1 treeZeroSocketInput graphSample
    ⟨"fn_FunctionInputNode", [], []⟩ rfl rfl

/-- C4: for the trivial tree of one input pseudo-node exposing two output
sockets plus the placeholder and one output pseudo-node exposing one input
socket plus the placeholder, connected directly, with graph construction
succeeding, `generate_function` returns a Function of input arity 2 and
output arity 1. -/
theorem generate_function_trivial_tree :
    ∃ fn, generate_function genSample treeSample = .ok (some fn) ∧
      fn.input_sockets.length = 2 ∧ fn.output_sockets.length = 1 :=
  ⟨decorateFunction treeSample graphSample ([0, 1], [0]), rfl, rfl, rfl⟩

/-- C5: whenever graph construction succeeds and interface discovery
completes, the generated Function is named after the originating tree,
carries exactly the three body passes dependency metadata, compiled code and
interpreted tuple call in that order (the derived tuple-call body never
appears), and owns the frozen virtual tree and the data-flow graph in its
resource list. -/
theorem generate_function_decorates
    (generate_graph : VirtualNodeTree → Option VTreeDataGraph) (btree : bNodeTree)
    (g : VTreeDataGraph) (sockets : List Nat × List Nat)
    (hg : generate_graph btree.vtree = some g)
    (hfind : find_interface_sockets btree.vtree g = .ok sockets) :
    ∃ fn, generate_function generate_graph btree = .ok (some fn) ∧
      fn.name = btree.id_name ∧
      fn.bodies = [BodyKind.DependenciesBody, BodyKind.LLVMBuildIRBody,
        BodyKind.TupleCallBody] ∧
      BodyKind.DerivedTupleCallBody ∉ fn.bodies ∧
      fn.resources = [⟨ResourceValue.vtreeRes btree.vtree, "Virtual Node Tree"⟩,
        ⟨ResourceValue.dataGraphRes g, "VTreeDataGraph"⟩] := by
  refine ⟨decorateFunction btree g sockets, ?_, rfl, rfl, ?_, rfl⟩
  · unfold generate_function
    simp only [hg]
    rw [hfind, finishFunction_ok]
  · have hb : (decorateFunction btree g sockets).bodies =
        [BodyKind.DependenciesBody, BodyKind.LLVMBuildIRBody,
          BodyKind.TupleCallBody] := rfl
    rw [hb]
    decide

/-- Witness for C5 at the trivial sample tree and its data graph. -/
theorem generate_function_decorates_witness :
    genSample treeSample.vtree = some graphSample ∧
      ∃ fn, generate_function genSample treeSample = .ok (some fn) ∧
        fn.name = treeSample.id_name ∧
        fn.bodies = [BodyKind.DependenciesBody, BodyKind.LLVMBuildIRBody,
          BodyKind.TupleCallBody] ∧
        BodyKind.DerivedTupleCallBody ∉ fn.bodies ∧
        fn.resources = [⟨ResourceValue.vtreeRes treeSample.vtree, "Virtual Node Tree"⟩,
          ⟨ResourceValue.dataGraphRes graphSample, "VTreeDataGraph"⟩] :=
  ⟨rfl, generate_function_decorates genSample treeSample graphSample ([0, 1], [0]) rfl rfl⟩

end BlenderFN
